import Mathlib

/-!
Verification of the session relay and connection-lifecycle manager of the
MineWithDawg server (src/server/routes.ts), shallowly embedded in Lean 4.

The embedding models the process-wide registry of active bot sessions
(the `activeBots` Map from connection id to `{bot, connectionId, ws}`),
the WebSocket message handlers (`handleBotConnect`, `handleBotDisconnect`,
`handleSendChat`, `handleSendCommand`, `handleBotMovement`), the adapter
event handlers attached in `handleBotConnect` (`login`, `message`, `end`),
and the `ws.on close` cleanup loop.  Stateful handlers are embedded as
pure functions from a registry to a new registry paired with the list of
externally visible side effects they perform (frames sent on the control
socket, storage-gateway calls, calls on the mineflayer bot handle, timer
cancellations), in the order the code performs them.
-/

/-- Outbound frames the server sends over the control WebSocket, mirroring
the JSON messages built in src/server/routes.ts.  Payload fields irrelevant
to the claims (positions, ping values) are elided. -/
inductive Frame where
  | botConnected (connectionId username : String)
  | botDisconnected (connectionId : String)
  | chatMessage (connectionId username message messageType : String) (isCommand : Bool)
  | pingUpdate
  | positionUpdate
  | connectionError (message : String)
  | botError (message : String)
  | errorFrame (message : String)
deriving DecidableEq, Repr

/-- Externally visible side effects of a handler, in program order:
frames sent on a control socket (identified by a numeric id), storage
gateway calls, calls on a mineflayer bot handle (identified by a numeric
id), scheduled timeouts and interval cancellations. -/
inductive Effect where
  | send (wsId : Nat) (frame : Frame)
  | storageUpdateConnection (connectionId : String) (isConnected : Bool)
  | storageCreateBotLog (connectionId logLevel message : String)
  | storageCreateChatMessage (connectionId username message messageType : String)
      (isCommand : Bool)
  | botQuit (botId : Nat)
  | botChat (botId : Nat) (message : String)
  | setControlState (botId : Nat) (control : String) (value : Bool)
  | scheduleSetControlState (botId : Nat) (control : String) (value : Bool) (delayMs : Nat)
  | clearTimer (timerId : Nat)
deriving DecidableEq, Repr

/-- One registered session: embeds the `BotInstance` record
`{bot, connectionId, ws}` stored in `activeBots` (the connection id is the
registry key), together with the values the event-handler closures created
in `handleBotConnect` capture: the bot handle's identity and username
(`bot.username`) and the telemetry `updateInterval` timer handle. -/
structure BotInstance where
  botId : Nat
  botUsername : String
  wsId : Nat
  timerId : Nat
deriving DecidableEq, Repr

/-- The `activeBots` registry: a JavaScript `Map` in insertion order,
embedded as an association list with unique keys. -/
abbrev Registry := List (String × BotInstance)

/-- JavaScript `Map.get`: the value stored under the key, if any. -/
def mapLookup (id : String) : Registry → Option BotInstance
  | [] => none
  | (k, v) :: t => if k == id then some v else mapLookup id t

/-- JavaScript `Map.set`: overwrite the value under an existing key in
place (keeping its position in insertion order), else append at the end. -/
def mapSet (id : String) (v : BotInstance) : Registry → Registry
  | [] => [(id, v)]
  | (k, w) :: t => if k == id then (k, v) :: t else (k, w) :: mapSet id v t

/-- JavaScript `Map.delete`: remove the entry under the key.  Keys are
unique in a `Map`, so removing every entry under the key coincides with
removing the single matching entry. -/
def mapDelete (id : String) : Registry → Registry
  | [] => []
  | (k, v) :: t => if k == id then mapDelete id t else (k, v) :: mapDelete id t

/-! ### The system-message filter (bot.on message handler) -/

/-- JavaScript `String.prototype.startsWith` on character lists. -/
def jsStartsWith (pre s : List Char) : Bool :=
  List.isPrefixOf pre s

/-- JavaScript `String.prototype.includes`: substring containment. -/
def containsSub (needle : List Char) : List Char → Bool
  | [] => needle.isEmpty
  | c :: t => List.isPrefixOf needle (c :: t) || containsSub needle t

/-- Whether the character list begins with a match of the JavaScript regex
fragment for a bracketed two-digit hh:mm:ss timestamp followed by the
literal text Server and Player in brackets. -/
def startsWithTimestampPattern : List Char → Bool
  | '[' :: a :: b :: ':' :: c :: d :: ':' :: e :: f :: ']' :: rest =>
      a.isDigit && b.isDigit && c.isDigit && d.isDigit && e.isDigit && f.isDigit &&
      List.isPrefixOf "[Server][Player]".toList rest
  | _ => false

/-- JavaScript `String.prototype.match` against the unanchored regex in the
bot.on message handler: true when the timestamp-Server-Player pattern
occurs anywhere in the string. -/
def containsTimestampPattern : List Char → Bool
  | [] => false
  | c :: t => startsWithTimestampPattern (c :: t) || containsTimestampPattern t

/-- JavaScript whitespace test used by `trim`, restricted to the ASCII
whitespace characters relevant here. -/
def isJsSpace (c : Char) : Bool :=
  c == ' ' || c == '\t' || c == '\n' || c == '\r'

/-- JavaScript `String.prototype.trim` on character lists. -/
def jsTrim (s : List Char) : List Char :=
  ((s.dropWhile isJsSpace).reverse.dropWhile isJsSpace).reverse

/-- The filter condition of the bot.on message handler in
`handleBotConnect` (src/server/routes.ts lines 237-242): a message is
treated as a system message iff it is truthy (nonempty), does not start
with a left angle bracket, contains neither the chat-separator glyph nor
the player-chat marker, does not match the timestamp pattern, and is not
whitespace-only after trimming. -/
def isSystemMessage (message : String) : Bool :=
  (!message.toList.isEmpty) &&
  (!jsStartsWith ['<'] message.toList) &&
  (!containsSub ['»'] message.toList) &&
  (!containsSub "[Player]".toList message.toList) &&
  (!containsTimestampPattern message.toList) &&
  (!(jsTrim message.toList).isEmpty)

/-- Effects of the bot.on message handler: persist and relay a system chat
entry when the filter accepts the message, otherwise do nothing. -/
def botMessageHandler (connectionId message : String) (wsId : Nat) : List Effect :=
  if isSystemMessage message then
    [Effect.storageCreateChatMessage connectionId "Server" message "system" false,
     Effect.send wsId (Frame.chatMessage connectionId "Server" message "system" false)]
  else
    []

/-! ### Lifecycle handlers -/

/-- The synchronous part of `handleBotConnect` (src/server/routes.ts lines
163-374).  `createOk` is whether `mineflayer.createBot` returns without
throwing (the only way the try block can throw synchronously; `errMsg` is
the thrown error's message otherwise).  On success the new `BotInstance` is
stored in `activeBots` immediately — before any adapter event, in
particular before login — and the handler performs no further synchronous
effect (the event listeners and the telemetry interval are merely
installed).  On synchronous failure the catch block persists an error log
entry and sends a connection error frame; nothing is registered.
The mineflayer-availability guard, host and port parsing, and listener
attachment are elided: they produce no registry change and no effect on
the success path. -/
def handleBotConnect (createOk : Bool) (errMsg : String) (newBotId newTimerId : Nat)
    (connectionId username : String) (wsId : Nat) (reg : Registry) :
    Registry × List Effect :=
  if createOk then
    (mapSet connectionId ⟨newBotId, username, wsId, newTimerId⟩ reg, [])
  else
    (reg,
     [Effect.storageCreateBotLog connectionId "error" ("Failed to connect: " ++ errMsg),
      Effect.send wsId (Frame.connectionError errMsg)])

/-- The async bot.on login listener (lines 186-209), with fallible storage.
The two storage calls are awaited in sequence before the bot connected
frame is sent; a rejected call aborts the rest of the listener body (the
returned flag records that the listener's promise rejected — unhandled, so
no frame results from it).  `hasEntity` is whether `bot.entity` is already
populated, in which case an initial position update frame follows. -/
def botLoginHandler (failUpdate failLog : Bool) (connectionId username : String)
    (wsId : Nat) (hasEntity : Bool) : List Effect × Bool :=
  if failUpdate then ([], true)
  else if failLog then ([Effect.storageUpdateConnection connectionId true], true)
  else
    ([Effect.storageUpdateConnection connectionId true,
      Effect.storageCreateBotLog connectionId "info"
        ("Bot " ++ username ++ " successfully logged into server"),
      Effect.send wsId (Frame.botConnected connectionId username)] ++
     (if hasEntity then [Effect.send wsId Frame.positionUpdate] else []), false)

/-- The two bot.on end listeners (lines 319-331 and 358-360), run in
registration order when the adapter session ends: persist the connection
as disconnected, append a warning log entry, delete the registry entry,
send the bot disconnected frame, and clear the telemetry interval.  The
listener closures capture the connection id, username, socket and timer
from `handleBotConnect`, so they run the same way whatever caused the
end event. -/
def botEndHandler (connectionId username : String) (wsId timerId : Nat)
    (reg : Registry) : Registry × List Effect :=
  (mapDelete connectionId reg,
   [Effect.storageUpdateConnection connectionId false,
    Effect.storageCreateBotLog connectionId "warning"
      ("Bot " ++ username ++ " disconnected from server"),
    Effect.send wsId (Frame.botDisconnected connectionId),
    Effect.clearTimer timerId])

/-- `handleBotDisconnect` (lines 376-387): if the id has a registry entry,
quit the bot handle, delete the entry and persist the connection as
disconnected; otherwise do nothing at all. -/
def handleBotDisconnect (connectionId : String) (reg : Registry) :
    Registry × List Effect :=
  match mapLookup connectionId reg with
  | some inst =>
      (mapDelete connectionId reg,
       [Effect.botQuit inst.botId,
        Effect.storageUpdateConnection connectionId false])
  | none => (reg, [])

/-- An explicit disconnect request together with its cascade: `bot.quit`
makes the adapter fire its end event exactly once, so when the id was
registered the end listeners run after `handleBotDisconnect`, with the
values their closures captured; when it was not, no quit is issued and no
end event follows. -/
def explicitDisconnectCascade (connectionId : String) (reg : Registry) :
    Registry × List Effect :=
  match mapLookup connectionId reg with
  | some inst =>
      let r1 := handleBotDisconnect connectionId reg
      let r2 := botEndHandler connectionId inst.botUsername inst.wsId inst.timerId r1.1
      (r2.1, r1.2 ++ r2.2)
  | none => handleBotDisconnect connectionId reg

/-- The ws.on close cleanup loop (lines 124-136): iterate over the
registry in insertion order, and at the FIRST entry whose owning socket is
the closing one, quit its bot, delete the entry, and break out of the
loop.  Entries after the first match are not examined. -/
def wsCloseCleanup (wsId : Nat) : Registry → Registry × List Effect
  | [] => ([], [])
  | (id, inst) :: t =>
      if inst.wsId == wsId then
        (t, [Effect.botQuit inst.botId])
      else
        let r := wsCloseCleanup wsId t
        ((id, inst) :: r.1, r.2)

/-! ### Command executor handlers -/

/-- `handleSendChat` (lines 389-411): on a live session, forward the text
to the bot's chat capability, persist a chat entry under the bot's own
username, and append an info log entry; otherwise do nothing. -/
def handleSendChat (connectionId message : String) (reg : Registry) :
    Registry × List Effect :=
  match mapLookup connectionId reg with
  | some inst =>
      (reg,
       [Effect.botChat inst.botId message,
        Effect.storageCreateChatMessage connectionId inst.botUsername message "chat" false,
        Effect.storageCreateBotLog connectionId "info" ("Sent chat: " ++ message)])
  | none => (reg, [])

/-- `handleSendCommand` (lines 413-435): like send chat but the persisted
entry is classified console and marked as a command. -/
def handleSendCommand (connectionId command : String) (reg : Registry) :
    Registry × List Effect :=
  match mapLookup connectionId reg with
  | some inst =>
      (reg,
       [Effect.botChat inst.botId command,
        Effect.storageCreateChatMessage connectionId inst.botUsername command "console" true,
        Effect.storageCreateBotLog connectionId "info" ("Executed command: " ++ command)])
  | none => (reg, [])

/-- `handleBotMovement` (lines 437-465): on a live session, switch on the
direction string.  The four directional cases set the corresponding
control state to whether the action string equals start.  The jump case
sets the jump control true and schedules it false after 100 milliseconds,
but only when the action is start.  Any other direction falls through the
switch with no effect.  Without a live session nothing happens. -/
def handleBotMovement (connectionId direction action : String) (reg : Registry) :
    Registry × List Effect :=
  match mapLookup connectionId reg with
  | none => (reg, [])
  | some inst =>
      (reg,
       if direction == "forward" then
         [Effect.setControlState inst.botId "forward" (action == "start")]
       else if direction == "back" then
         [Effect.setControlState inst.botId "back" (action == "start")]
       else if direction == "left" then
         [Effect.setControlState inst.botId "left" (action == "start")]
       else if direction == "right" then
         [Effect.setControlState inst.botId "right" (action == "start")]
       else if direction == "jump" then
         if action == "start" then
           [Effect.setControlState inst.botId "jump" true,
            Effect.scheduleSetControlState inst.botId "jump" false 100]
         else []
       else [])

/-- The catch block of `handleBotConnect` (lines 362-373) with fallible
storage: the error log write is awaited before the connection error frame
is sent, so a rejected write aborts the block (the flag records that
`handleBotConnect` itself rejected). -/
def connectCatchHandler (failLog : Bool) (connectionId errMsg : String) (wsId : Nat) :
    List Effect × Bool :=
  if failLog then ([], true)
  else
    ([Effect.storageCreateBotLog connectionId "error" ("Failed to connect: " ++ errMsg),
      Effect.send wsId (Frame.connectionError errMsg)], false)

/-- The ws.on message wrapper (lines 114-122): `handleWebSocketMessage` is
awaited inside a try block whose catch sends a generic invalid message
format error frame; so a handler that rejects — including one whose
awaited storage call failed — makes the wrapper send that frame. -/
def wsMessageDispatch (wsId : Nat) (handlerResult : List Effect × Bool) : List Effect :=
  if handlerResult.2 then
    handlerResult.1 ++ [Effect.send wsId (Frame.errorFrame "Invalid message format")]
  else handlerResult.1

/-! ### Effect classifiers -/

/-- Whether an effect is a bot disconnected frame sent on some socket. -/
def isBotDisconnectedFrame : Effect → Bool
  | Effect.send _ (Frame.botDisconnected _) => true
  | _ => false

/-- Whether an effect is a bot connected frame sent on some socket. -/
def isBotConnectedFrame : Effect → Bool
  | Effect.send _ (Frame.botConnected _ _) => true
  | _ => false

/-- Whether an effect is any frame sent on a socket. -/
def isSendFrame : Effect → Bool
  | Effect.send _ _ => true
  | _ => false

/-- Whether an effect cancels a timer. -/
def isClearTimer : Effect → Bool
  | Effect.clearTimer _ => true
  | _ => false

/-- Whether an effect quits a bot handle. -/
def isBotQuit : Effect → Bool
  | Effect.botQuit _ => true
  | _ => false

/-- Whether an effect persists a warning-level log entry. -/
def isWarningLog : Effect → Bool
  | Effect.storageCreateBotLog _ lvl _ => lvl == "warning"
  | _ => false

/-- Number of registry entries stored under a connection id. -/
def sessionsFor (id : String) (reg : Registry) : Nat :=
  reg.countP (fun p => p.1 == id)

/-! ### Registry lemmas -/

theorem mapLookup_mapDelete (id : String) (reg : Registry) :
    mapLookup id (mapDelete id reg) = none := by
  induction reg with
  | nil => rfl
  | cons p t ih =>
      obtain ⟨k, v⟩ := p
      by_cases h : k == id
      · simpa [mapDelete, h] using ih
      · simpa [mapDelete, h, mapLookup] using ih

theorem mapDelete_mapDelete (id : String) (reg : Registry) :
    mapDelete id (mapDelete id reg) = mapDelete id reg := by
  induction reg with
  | nil => rfl
  | cons p t ih =>
      obtain ⟨k, v⟩ := p
      by_cases h : k == id
      · simpa [mapDelete, h] using ih
      · simp [mapDelete, h, ih]

theorem mapLookup_mapSet_self (id : String) (v : BotInstance) (reg : Registry) :
    mapLookup id (mapSet id v reg) = some v := by
  induction reg with
  | nil => simp [mapSet, mapLookup]
  | cons p t ih =>
      obtain ⟨k, w⟩ := p
      by_cases h : k == id
      · simp [mapSet, h, mapLookup]
      · simp [mapSet, h, mapLookup, ih]

theorem countP_mapSet_ne (cid id' : String) (hne : id' ≠ cid)
    (v : BotInstance) (reg : Registry) :
    (mapSet cid v reg).countP (fun p => p.1 == id') =
      reg.countP (fun p => p.1 == id') := by
  induction reg with
  | nil =>
      have h : (cid == id') = false := by
        simp [beq_iff_eq]
        exact fun hc => hne hc.symm
      simp [mapSet, List.countP_cons, h]
  | cons p t ih =>
      obtain ⟨k, w⟩ := p
      by_cases h : k == cid
      · have hk : k = cid := by simpa [beq_iff_eq] using h
        have hp : (k == id') = false := by
          simp [beq_iff_eq, hk]
          exact fun hc => hne hc.symm
        simp [mapSet, h, List.countP_cons, hp]
      · simp [mapSet, h, List.countP_cons, ih]

theorem countP_mapSet_self (cid : String) (v : BotInstance) (reg : Registry)
    (hm : reg.countP (fun p => p.1 == cid) ≤ 1) :
    (mapSet cid v reg).countP (fun p => p.1 == cid) = 1 := by
  induction reg with
  | nil => simp [mapSet, List.countP_cons]
  | cons p t ih =>
      obtain ⟨k, w⟩ := p
      by_cases h : k == cid
      · simp [mapSet, h, List.countP_cons] at hm ⊢
        exact hm
      · simp [mapSet, h, List.countP_cons] at hm ⊢
        exact ih hm

theorem isEmpty_false_of_jsTrim (l : List Char)
    (h : (jsTrim l).isEmpty = false) : l.isEmpty = false := by
  cases l with
  | nil => simp [jsTrim] at h
  | cons c t => rfl

/-! ### Claim theorems -/

/-- C1 counterexample: immediately after a successful connect request for
id c1 — before any adapter login event has been processed — the registry
already holds a Session for c1, and the connect request itself emitted no
frame; registration therefore does not happen upon the login event. -/
theorem c1_counterexample :
    mapLookup "c1" (handleBotConnect true "" 0 1 "c1" "Bob" 0 []).1 =
      some ⟨0, "Bob", 0, 1⟩ ∧
    (handleBotConnect true "" 0 1 "c1" "Bob" 0 []).2 = [] :=
  ⟨by decide, by decide⟩

/-- C1 (amended): a connect request registers the Session immediately when
the adapter handle is created, before login; a request whose handle
creation throws synchronously leaves no Session registered and only
persists an error log entry and emits a connection error frame. -/
theorem c1_registration_at_request (errMsg cid u : String) (b t w : Nat)
    (reg : Registry) :
    handleBotConnect true errMsg b t cid u w reg =
      (mapSet cid ⟨b, u, w, t⟩ reg, []) ∧
    mapLookup cid (handleBotConnect true errMsg b t cid u w reg).1 =
      some ⟨b, u, w, t⟩ ∧
    handleBotConnect false errMsg b t cid u w reg =
      (reg,
       [Effect.storageCreateBotLog cid "error" ("Failed to connect: " ++ errMsg),
        Effect.send w (Frame.connectionError errMsg)]) := by
  refine ⟨rfl, ?_, rfl⟩
  simpa [handleBotConnect] using mapLookup_mapSet_self cid ⟨b, u, w, t⟩ reg

/-- C2 counterexample: with a live Session for c1 (bot handle 0, timer 1)
in the registry, a second connect request for c1 produces no effect at all
— in particular neither a quit of bot 0 nor a cancellation of timer 1 —
and silently overwrites the entry, so the prior session is not torn down
before the new Session is registered. -/
theorem c2_counterexample :
    mapLookup "c1" [("c1", (⟨0, "Bob", 0, 1⟩ : BotInstance))] =
      some ⟨0, "Bob", 0, 1⟩ ∧
    (handleBotConnect true "" 2 3 "c1" "Bob" 0 [("c1", ⟨0, "Bob", 0, 1⟩)]).2 = [] ∧
    (handleBotConnect true "" 2 3 "c1" "Bob" 0 [("c1", ⟨0, "Bob", 0, 1⟩)]).1 =
      [("c1", ⟨2, "Bob", 0, 3⟩)] :=
  ⟨by decide, by decide, by decide⟩

/-- C2 (amended): the registry keeps at most one entry per connection id
(the Map set overwrites in place), and the new Session is registered under
the id, but a connect for an id with a live entry performs no teardown of
the prior session: the request's effect list is empty, so the old client
handle is never quit and the old timer is never cancelled. -/
theorem c2_overwrite_without_teardown (errMsg cid u id' : String) (b t w : Nat)
    (reg : Registry) (h : sessionsFor id' reg ≤ 1) :
    sessionsFor id' (handleBotConnect true errMsg b t cid u w reg).1 ≤ 1 ∧
    (handleBotConnect true errMsg b t cid u w reg).2 = [] ∧
    mapLookup cid (handleBotConnect true errMsg b t cid u w reg).1 =
      some ⟨b, u, w, t⟩ := by
  refine ⟨?_, rfl,
    by simpa [handleBotConnect] using mapLookup_mapSet_self cid ⟨b, u, w, t⟩ reg⟩
  simp only [sessionsFor, handleBotConnect, if_true] at h ⊢
  by_cases hc : id' = cid
  · subst hc
    exact le_of_eq (countP_mapSet_self id' ⟨b, u, w, t⟩ reg h)
  · rw [countP_mapSet_ne cid id' hc ⟨b, u, w, t⟩ reg]
    exact h

/-- C2 witness: the amended statement evaluated on a concrete registry
holding one live session for c1. -/
theorem c2_overwrite_without_teardown_witness :
    sessionsFor "c1" (handleBotConnect true "" 2 3 "c1" "Bob" 0
      [("c1", ⟨0, "Bob", 0, 1⟩)]).1 ≤ 1 ∧
    (handleBotConnect true "" 2 3 "c1" "Bob" 0 [("c1", ⟨0, "Bob", 0, 1⟩)]).2 = [] ∧
    mapLookup "c1" (handleBotConnect true "" 2 3 "c1" "Bob" 0
      [("c1", ⟨0, "Bob", 0, 1⟩)]).1 = some ⟨2, "Bob", 0, 3⟩ :=
  c2_overwrite_without_teardown "" "c1" "Bob" "c1" 2 3 0
    [("c1", ⟨0, "Bob", 0, 1⟩)] (by decide)

/-- C3: the system-message filter classifies an adapter message event as
system — and the handler persists and relays it as a system chat entry —
iff the text does not start with the chat-quote marker, contains neither
the chat-separator glyph nor the player-chat marker, does not match the
timestamp pattern anywhere, and is not empty or whitespace-only after
trimming; the five listed inputs are rejected and the server-restart
notice is accepted. -/
theorem c3_system_message_filter :
    (∀ m : String,
      isSystemMessage m = true ↔
        (jsStartsWith ['<'] m.toList = false ∧
         containsSub ['»'] m.toList = false ∧
         containsSub "[Player]".toList m.toList = false ∧
         containsTimestampPattern m.toList = false ∧
         (jsTrim m.toList).isEmpty = false)) ∧
    (∀ cid m : String, ∀ w : Nat, botMessageHandler cid m w =
      if isSystemMessage m then
        [Effect.storageCreateChatMessage cid "Server" m "system" false,
         Effect.send w (Frame.chatMessage cid "Server" m "system" false)]
      else []) ∧
    isSystemMessage "<Alice> hi" = false ∧
    isSystemMessage "Server » restart" = false ∧
    isSystemMessage "[Player] moved" = false ∧
    isSystemMessage "[12:00:00][Server][Player] x" = false ∧
    isSystemMessage "" = false ∧
    isSystemMessage "Server restarting in 5 minutes" = true := by
  refine ⟨?_, fun cid m w => rfl, by decide, by decide, by decide, by decide,
    by decide, by decide⟩
  intro m
  simp only [isSystemMessage, Bool.and_eq_true, Bool.not_eq_true', and_assoc]
  constructor
  · rintro ⟨h1, h2, h3, h4, h5, h6⟩
    exact ⟨h2, h3, h4, h5, h6⟩
  · rintro ⟨h2, h3, h4, h5, h6⟩
    exact ⟨isEmpty_false_of_jsTrim _ h6, h2, h3, h4, h5, h6⟩

/-- C4 counterexample: two Sessions are owned by the closing socket 7, but
the cleanup loop quits and removes only the first one and then breaks, so
the second Session (bot 2) is still registered afterwards and its bot is
never quit. -/
theorem c4_counterexample :
    wsCloseCleanup 7 [("a", ⟨0, "A", 7, 1⟩), ("b", ⟨2, "B", 7, 3⟩)] =
      ([("b", ⟨2, "B", 7, 3⟩)], [Effect.botQuit 0]) ∧
    mapLookup "b"
      (wsCloseCleanup 7 [("a", ⟨0, "A", 7, 1⟩), ("b", ⟨2, "B", 7, 3⟩)]).1 =
      some ⟨2, "B", 7, 3⟩ :=
  ⟨by decide, by decide⟩

/-- C4 (amended): on control-socket close, only the FIRST registry entry
in insertion order owned by the closing socket is torn down — its bot is
quit and its entry removed — and the scan stops there, leaving any later
entries (whether or not they are owned by the same socket) untouched. -/
theorem c4_close_cleanup_first_match_only (w : Nat) (pre post : Registry)
    (id : String) (inst : BotInstance)
    (hpre : ∀ p ∈ pre, p.2.wsId ≠ w) (hmatch : inst.wsId = w) :
    wsCloseCleanup w (pre ++ (id, inst) :: post) =
      (pre ++ post, [Effect.botQuit inst.botId]) := by
  induction pre with
  | nil => simp [wsCloseCleanup, hmatch]
  | cons q tl ih =>
      obtain ⟨qid, qinst⟩ := q
      have hq : (qinst.wsId == w) = false :=
        beq_eq_false_iff_ne.mpr (hpre (qid, qinst) (by simp))
      have ht : ∀ p ∈ tl, p.2.wsId ≠ w := fun p hp => hpre p (by simp [hp])
      simp [wsCloseCleanup, hq, ih ht]

/-- C4 witness: the amended statement on a registry whose first entry is
owned by another socket and whose second is owned by the closing one. -/
theorem c4_close_cleanup_first_match_only_witness :
    wsCloseCleanup 7 ([("x", ⟨9, "X", 5, 0⟩)] ++ ("a", ⟨0, "A", 7, 1⟩) :: []) =
      ([("x", ⟨9, "X", 5, 0⟩)] ++ [], [Effect.botQuit 0]) :=
  c4_close_cleanup_first_match_only 7 [("x", ⟨9, "X", 5, 0⟩)] [] "a"
    ⟨0, "A", 7, 1⟩ (by decide) rfl

/-- C5: teardown is idempotent — a second explicit disconnect for the same
id after the first completed (entry already absent) changes nothing and
performs no effect, and across both invocations the teardown cascade emits
exactly one bot disconnected frame and exactly one timer cancellation. -/
theorem c5_disconnect_idempotent (id : String) (inst : BotInstance)
    (reg : Registry) (h : mapLookup id reg = some inst) :
    explicitDisconnectCascade id (explicitDisconnectCascade id reg).1 =
      ((explicitDisconnectCascade id reg).1, []) ∧
    ((explicitDisconnectCascade id reg).2).countP isBotDisconnectedFrame = 1 ∧
    ((explicitDisconnectCascade id reg).2).countP isClearTimer = 1 := by
  have h1 : (explicitDisconnectCascade id reg).1 = mapDelete id reg := by
    simp [explicitDisconnectCascade, h, handleBotDisconnect, botEndHandler,
      mapDelete_mapDelete]
  have h2 : (explicitDisconnectCascade id reg).2 =
      [Effect.botQuit inst.botId,
       Effect.storageUpdateConnection id false,
       Effect.storageUpdateConnection id false,
       Effect.storageCreateBotLog id "warning"
         ("Bot " ++ inst.botUsername ++ " disconnected from server"),
       Effect.send inst.wsId (Frame.botDisconnected id),
       Effect.clearTimer inst.timerId] := by
    simp [explicitDisconnectCascade, h, handleBotDisconnect, botEndHandler]
  have hl : mapLookup id (mapDelete id reg) = none := mapLookup_mapDelete id reg
  refine ⟨?_, ?_, ?_⟩
  · rw [h1]
    simp [explicitDisconnectCascade, hl, handleBotDisconnect]
  · rw [h2]
    simp [List.countP_cons, isBotDisconnectedFrame]
  · rw [h2]
    simp [List.countP_cons, isClearTimer]

/-- C5 witness: the idempotency statement evaluated on a registry with one
live session for c1. -/
theorem c5_disconnect_idempotent_witness :
    explicitDisconnectCascade "c1"
        (explicitDisconnectCascade "c1" [("c1", ⟨0, "Bob", 4, 5⟩)]).1 =
      ((explicitDisconnectCascade "c1" [("c1", ⟨0, "Bob", 4, 5⟩)]).1, []) ∧
    ((explicitDisconnectCascade "c1" [("c1", ⟨0, "Bob", 4, 5⟩)]).2).countP
      isBotDisconnectedFrame = 1 ∧
    ((explicitDisconnectCascade "c1" [("c1", ⟨0, "Bob", 4, 5⟩)]).2).countP
      isClearTimer = 1 :=
  c5_disconnect_idempotent "c1" ⟨0, "Bob", 4, 5⟩ [("c1", ⟨0, "Bob", 4, 5⟩)]
    (by decide)

/-- C6 counterexample: an explicit user disconnect for the live session c1
nevertheless appends a warning log entry, because quitting the handle
triggers the adapter end event and its listener cannot distinguish the
cause — contradicting the claim that the warning is never appended on an
explicit user disconnect. -/
theorem c6_counterexample :
    ((explicitDisconnectCascade "c1" [("c1", ⟨0, "Bob", 4, 5⟩)]).2).countP
      isWarningLog = 1 := by decide

/-- C6 (amended): the adapter end event cancels the timer, persists the
connection as disconnected, appends the warning log entry, emits the bot
disconnected frame and removes the Session; an explicit disconnect request
quits the handle, removes the Session and persists disconnection, and the
remaining Terminated side effects — including the warning log entry —
arrive through the adapter end event that the quit triggers, so the
warning log entry is appended regardless of who initiated termination. -/
theorem c6_terminated_side_effects (id u : String) (w t : Nat)
    (reg : Registry) (inst : BotInstance) (h : mapLookup id reg = some inst) :
    botEndHandler id u w t reg =
      (mapDelete id reg,
       [Effect.storageUpdateConnection id false,
        Effect.storageCreateBotLog id "warning"
          ("Bot " ++ u ++ " disconnected from server"),
        Effect.send w (Frame.botDisconnected id),
        Effect.clearTimer t]) ∧
    explicitDisconnectCascade id reg =
      (mapDelete id reg,
       [Effect.botQuit inst.botId,
        Effect.storageUpdateConnection id false,
        Effect.storageUpdateConnection id false,
        Effect.storageCreateBotLog id "warning"
          ("Bot " ++ inst.botUsername ++ " disconnected from server"),
        Effect.send inst.wsId (Frame.botDisconnected id),
        Effect.clearTimer inst.timerId]) := by
  refine ⟨rfl, ?_⟩
  simp [explicitDisconnectCascade, h, handleBotDisconnect, botEndHandler,
    mapDelete_mapDelete]

/-- C6 witness: both paths evaluated on a registry with one live session. -/
theorem c6_terminated_side_effects_witness :
    botEndHandler "c1" "Bob" 4 5 [("c1", ⟨0, "Bob", 4, 5⟩)] =
      (mapDelete "c1" [("c1", ⟨0, "Bob", 4, 5⟩)],
       [Effect.storageUpdateConnection "c1" false,
        Effect.storageCreateBotLog "c1" "warning"
          ("Bot " ++ "Bob" ++ " disconnected from server"),
        Effect.send 4 (Frame.botDisconnected "c1"),
        Effect.clearTimer 5]) ∧
    explicitDisconnectCascade "c1" [("c1", ⟨0, "Bob", 4, 5⟩)] =
      (mapDelete "c1" [("c1", ⟨0, "Bob", 4, 5⟩)],
       [Effect.botQuit 0,
        Effect.storageUpdateConnection "c1" false,
        Effect.storageUpdateConnection "c1" false,
        Effect.storageCreateBotLog "c1" "warning"
          ("Bot " ++ "Bob" ++ " disconnected from server"),
        Effect.send 4 (Frame.botDisconnected "c1"),
        Effect.clearTimer 5]) :=
  c6_terminated_side_effects "c1" "Bob" 4 5 [("c1", ⟨0, "Bob", 4, 5⟩)]
    ⟨0, "Bob", 4, 5⟩ (by decide)

/-- C7 counterexample: when the awaited storage update in the login
listener rejects, the listener aborts and the bot connected frame is never
sent — the storage failure does block the relay action it accompanies; and
when the storage write in the connect handler's catch block rejects, the
socket message wrapper catches the rejection and sends a generic error
frame — a storage failure does surface to the socket. -/
theorem c7_counterexample :
    (botLoginHandler true false "c1" "Bob" 0 true).1 = [] ∧
    wsMessageDispatch 0 (connectCatchHandler true "c1" "boom" 0) =
      [Effect.send 0 (Frame.errorFrame "Invalid message format")] :=
  ⟨by decide, by decide⟩

/-- C7 (amended): a storage failure inside the login listener sends no
frame at all — in particular the bot connected frame is lost, because the
storage calls are awaited before the send, not fire-and-forget; only when
both storage calls succeed is the bot connected frame sent (exactly once);
and a storage failure inside a message-dispatched handler body (the
connect handler's catch block) propagates to the socket message wrapper,
which sends a generic invalid message format error frame in place of the
intended connection error frame. -/
theorem c7_storage_failure_observable (cid u eMsg : String) (w : Nat)
    (he : Bool) :
    (botLoginHandler true false cid u w he).1.countP isSendFrame = 0 ∧
    (botLoginHandler false true cid u w he).1.countP isSendFrame = 0 ∧
    (botLoginHandler false false cid u w he).1.countP isBotConnectedFrame = 1 ∧
    wsMessageDispatch w (connectCatchHandler true cid eMsg w) =
      [Effect.send w (Frame.errorFrame "Invalid message format")] ∧
    wsMessageDispatch w (connectCatchHandler false cid eMsg w) =
      [Effect.storageCreateBotLog cid "error" ("Failed to connect: " ++ eMsg),
       Effect.send w (Frame.connectionError eMsg)] := by
  refine ⟨rfl, ?_, ?_, rfl, rfl⟩
  · simp [botLoginHandler, isSendFrame, List.countP_cons]
  · cases he <;>
      simp [botLoginHandler, isBotConnectedFrame, List.countP_cons,
        List.countP_append]

/-- C8: every command-executor action — send chat, send command, move —
invoked with a connection id that has no live Session is a silent no-op:
the registry is unchanged and the effect list is empty, so no frame is
sent, nothing is persisted, and no adapter call is made. -/
theorem c8_missing_session_noop (id msg cmd dir act : String) (reg : Registry)
    (h : mapLookup id reg = none) :
    handleSendChat id msg reg = (reg, []) ∧
    handleSendCommand id cmd reg = (reg, []) ∧
    handleBotMovement id dir act reg = (reg, []) := by
  simp [handleSendChat, handleSendCommand, handleBotMovement, h]

/-- C8 witness: the three actions evaluated against an empty registry. -/
theorem c8_missing_session_noop_witness :
    handleSendChat "c1" "hi" [] = ([], []) ∧
    handleSendCommand "c1" "/help" [] = ([], []) ∧
    handleBotMovement "c1" "forward" "start" [] = ([], []) :=
  c8_missing_session_noop "c1" "hi" "/help" "forward" "start" [] rfl

/-- C9: on a live session, a jump start sets the jump control true
immediately and schedules it false after the fixed 100 millisecond delay,
while a jump stop performs no adapter call at all. -/
theorem c9_jump_semantics (id : String) (inst : BotInstance) (reg : Registry)
    (h : mapLookup id reg = some inst) :
    handleBotMovement id "jump" "start" reg =
      (reg, [Effect.setControlState inst.botId "jump" true,
             Effect.scheduleSetControlState inst.botId "jump" false 100]) ∧
    handleBotMovement id "jump" "stop" reg = (reg, []) := by
  simp [handleBotMovement, h]

/-- C9 witness: jump start and stop evaluated on a concrete live
session. -/
theorem c9_jump_semantics_witness :
    handleBotMovement "c1" "jump" "start" [("c1", ⟨0, "Bob", 4, 5⟩)] =
      ([("c1", ⟨0, "Bob", 4, 5⟩)],
       [Effect.setControlState 0 "jump" true,
        Effect.scheduleSetControlState 0 "jump" false 100]) ∧
    handleBotMovement "c1" "jump" "stop" [("c1", ⟨0, "Bob", 4, 5⟩)] =
      ([("c1", ⟨0, "Bob", 4, 5⟩)], []) :=
  c9_jump_semantics "c1" ⟨0, "Bob", 4, 5⟩ [("c1", ⟨0, "Bob", 4, 5⟩)] (by decide)

/-- C10: on a live session, a move frame whose direction is none of
forward, back, left, right or jump falls through the switch with no state
change and no effect; and for each of the four directional moves, any
action value other than start — not only stop — sets the corresponding
control state to false. -/
theorem c10_movement_frame_conditions (id dir act act' : String)
    (inst : BotInstance) (reg : Registry) (h : mapLookup id reg = some inst)
    (h1 : dir ≠ "forward") (h2 : dir ≠ "back") (h3 : dir ≠ "left")
    (h4 : dir ≠ "right") (h5 : dir ≠ "jump") (hact : act' ≠ "start") :
    handleBotMovement id dir act reg = (reg, []) ∧
    handleBotMovement id "forward" act' reg =
      (reg, [Effect.setControlState inst.botId "forward" false]) ∧
    handleBotMovement id "back" act' reg =
      (reg, [Effect.setControlState inst.botId "back" false]) ∧
    handleBotMovement id "left" act' reg =
      (reg, [Effect.setControlState inst.botId "left" false]) ∧
    handleBotMovement id "right" act' reg =
      (reg, [Effect.setControlState inst.botId "right" false]) := by
  have hb1 : (dir == "forward") = false := beq_eq_false_iff_ne.mpr h1
  have hb2 : (dir == "back") = false := beq_eq_false_iff_ne.mpr h2
  have hb3 : (dir == "left") = false := beq_eq_false_iff_ne.mpr h3
  have hb4 : (dir == "right") = false := beq_eq_false_iff_ne.mpr h4
  have hb5 : (dir == "jump") = false := beq_eq_false_iff_ne.mpr h5
  have hba : (act' == "start") = false := beq_eq_false_iff_ne.mpr hact
  simp [handleBotMovement, h, hb1, hb2, hb3, hb4, hb5, hba]

/-- C10 witness: an unknown direction and a non-start action evaluated on
a concrete live session. -/
theorem c10_movement_frame_conditions_witness :
    handleBotMovement "c1" "fly" "start" [("c1", ⟨0, "Bob", 4, 5⟩)] =
      ([("c1", ⟨0, "Bob", 4, 5⟩)], []) ∧
    handleBotMovement "c1" "forward" "halt" [("c1", ⟨0, "Bob", 4, 5⟩)] =
      ([("c1", ⟨0, "Bob", 4, 5⟩)],
       [Effect.setControlState 0 "forward" false]) ∧
    handleBotMovement "c1" "back" "halt" [("c1", ⟨0, "Bob", 4, 5⟩)] =
      ([("c1", ⟨0, "Bob", 4, 5⟩)],
       [Effect.setControlState 0 "back" false]) ∧
    handleBotMovement "c1" "left" "halt" [("c1", ⟨0, "Bob", 4, 5⟩)] =
      ([("c1", ⟨0, "Bob", 4, 5⟩)],
       [Effect.setControlState 0 "left" false]) ∧
    handleBotMovement "c1" "right" "halt" [("c1", ⟨0, "Bob", 4, 5⟩)] =
      ([("c1", ⟨0, "Bob", 4, 5⟩)],
       [Effect.setControlState 0 "right" false]) :=
  c10_movement_frame_conditions "c1" "fly" "halt" "halt" ⟨0, "Bob", 4, 5⟩
    [("c1", ⟨0, "Bob", 4, 5⟩)] (by decide) (by decide) (by decide) (by decide)
    (by decide) (by decide) (by decide)
